import Mathlib

set_option linter.unusedVariables false

/-!
Shallow embedding of the data-gathering and analysis core of the
content-ai-app repository (src/main_logic.py).

JSON values are modelled by the inductive `Json` below, with numbers as
exact rationals (Python float literals such as 1.15 and 0.05 are taken at
their decimal value).  Python operations that can raise are modelled in
`Except PyErr`; Python exceptions caught by a worker correspond to the
`Except.error` branch.  The external HTTP layer is an oracle
`Net : Nat → SerpParams → Option Json` (attempt number and request
parameters to either a 200-response body or a failure), and the VADER
sentiment library is an oracle `score : String → ℚ`.  The shared
`itertools.cycle` key rotation is modelled by a cursor (`Nat`) threaded
explicitly through the pipeline; the four thread-pool workers of
`run_full_analysis` are executed in submission order.
-/

inductive Json where
  | null
  | bool (b : Bool)
  | num (q : ℚ)
  | str (s : String)
  | arr (xs : List Json)
  | obj (fields : List (String × Json))

/-- Python exception classes that the embedded code can raise. -/
inductive PyErr where
  | typeError
  | keyError
  | attributeError
deriving DecidableEq

/-- Python truthiness of a JSON value. -/
def truthy : Json → Bool
  | .null => false
  | .bool b => b
  | .num q => decide (q ≠ 0)
  | .str s => !s.isEmpty
  | .arr xs => !xs.isEmpty
  | .obj fs => !fs.isEmpty

/-- First-match association-list lookup (Python dicts have unique keys). -/
def jLookup : List (String × Json) → String → Option Json
  | [], _ => none
  | (k2, v) :: rest, k => if k2 = k then some v else jLookup rest k

/-- Substring test, used for the Python `in` operator on strings. -/
def isSubstr (needle hay : String) : Bool :=
  (List.range (hay.data.length + 1)).any (fun i => needle.data.isPrefixOf (hay.data.drop i))

/-- Python `k in j` for a string `k`: key membership for dicts, element
equality for lists, substring test for strings, TypeError otherwise. -/
def pyIn (k : String) (j : Json) : Except PyErr Bool :=
  match j with
  | .obj fs => .ok ((jLookup fs k).isSome)
  | .arr xs => .ok (xs.any (fun e => match e with | .str s => decide (s = k) | _ => false))
  | .str s => .ok (isSubstr k s)
  | _ => .error .typeError

/-- Python `j[k]` for a string key: KeyError on a dict without the key,
TypeError on non-dict containers and scalars. -/
def pyGetItem (j : Json) (k : String) : Except PyErr Json :=
  match j with
  | .obj fs =>
    match jLookup fs k with
    | some v => .ok v
    | none => .error .keyError
  | _ => .error .typeError

/-- Python `j.get(k, d)`: only dicts have `.get`; anything else raises
AttributeError. -/
def pyGet (j : Json) (k : String) (d : Json) : Except PyErr Json :=
  match j with
  | .obj fs => .ok ((jLookup fs k).getD d)
  | _ => .error .attributeError

/-- Python iteration `for x in j`: list elements, string characters,
dict keys; TypeError for scalars. -/
def pyIter (j : Json) : Except PyErr (List Json) :=
  match j with
  | .arr xs => .ok xs
  | .str s => .ok (s.data.map (fun c => .str (String.singleton c)))
  | .obj fs => .ok (fs.map (fun p => .str p.1))
  | _ => .error .typeError

/-- Python `a + b` restricted to the shapes the embedded code can meet:
list or string concatenation, numeric addition; other combinations
raise TypeError (as the subsequent Python iteration over them would). -/
def pyAdd (a b : Json) : Except PyErr Json :=
  match a, b with
  | .arr xs, .arr ys => .ok (.arr (xs ++ ys))
  | .str s, .str t => .ok (.str (s ++ t))
  | .num x, .num y => .ok (.num (x + y))
  | _, _ => .error .typeError

mutual

/-- Python `repr` of a JSON value (string rendering used inside
containers; rational numbers approximate Python float printing). -/
def pyRepr : Json → String
  | .null => "None"
  | .bool b => if b then "True" else "False"
  | .num q => toString q
  | .str s => "\x27" ++ s ++ "\x27"
  | .arr xs => "[" ++ pyReprList xs ++ "]"
  | .obj fs => "\x7b" ++ pyReprFields fs ++ "\x7d"

def pyReprList : List Json → String
  | [] => ""
  | [x] => pyRepr x
  | x :: y :: rest => pyRepr x ++ ", " ++ pyReprList (y :: rest)

def pyReprFields : List (String × Json) → String
  | [] => ""
  | [(k, v)] => "\x27" ++ k ++ "\x27: " ++ pyRepr v
  | (k, v) :: p :: rest => "\x27" ++ k ++ "\x27: " ++ pyRepr v ++ ", " ++ pyReprFields (p :: rest)

end

/-- Python `str(j)`: identity on strings, `repr` rendering otherwise. -/
def pyStr : Json → String
  | .str s => s
  | j => pyRepr j

-- ==========================================================================
-- SECTION 3 of main_logic.py: DATA PARSING
-- ==========================================================================

/-- One loop iteration of `parse_related_topics`: the nested
(`item["topic"]`) shape, the flat (`item["title"]`) shape, or skip. -/
def cleanTopicItem (item : Json) : Except PyErr (Option Json) :=
  match pyIn "topic" item with
  | .error e => .error e
  | .ok true =>
    match pyGetItem item "topic" with
    | .error e => .error e
    | .ok t =>
      match pyGet t "title" (.str "Unknown") with
      | .error e => .error e
      | .ok title =>
        match pyGet t "type" (.str "Topic") with
        | .error e => .error e
        | .ok ty =>
          match pyGet item "value" (.str "") with
          | .error e => .error e
          | .ok v => .ok (some (.obj [("title", title), ("type", ty), ("value", v)]))
  | .ok false =>
    match pyIn "title" item with
    | .error e => .error e
    | .ok false => .ok none
    | .ok true =>
      match pyGet item "title" (.str "Unknown") with
      | .error e => .error e
      | .ok title =>
        match pyGet item "type" (.str "Topic") with
        | .error e => .error e
        | .ok ty =>
          match pyGet item "value" (.str "") with
          | .error e => .error e
          | .ok v => .ok (some (.obj [("title", title), ("type", ty), ("value", v)]))

/-- The `for item in raw_topics` loop of `parse_related_topics`. -/
def cleanTopics : List Json → Except PyErr (List Json)
  | [] => .ok []
  | item :: rest =>
    match cleanTopicItem item with
    | .error e => .error e
    | .ok r =>
      match cleanTopics rest with
      | .error e => .error e
      | .ok tail => .ok (match r with | some x => x :: tail | none => tail)

/-- `parse_related_topics` from src/main_logic.py (the active, robust
version): take the "top" bucket, fall back to "rising" when "top" is
falsy, and accept nested and flat record shapes. -/
def parse_related_topics (results_json : Json) : Except PyErr (List Json) :=
  if !truthy results_json then .ok []
  else
    match pyIn "related_topics" results_json with
    | .error e => .error e
    | .ok false => .ok []
    | .ok true =>
      match pyGetItem results_json "related_topics" with
      | .error e => .error e
      | .ok rt =>
        match pyGet rt "top" (.arr []) with
        | .error e => .error e
        | .ok raw1 =>
          let rawE : Except PyErr Json :=
            if truthy raw1 then .ok raw1
            else
              match pyGetItem results_json "related_topics" with
              | .error e => .error e
              | .ok rt2 => pyGet rt2 "rising" (.arr [])
          match rawE with
          | .error e => .error e
          | .ok raw =>
            match pyIter raw with
            | .error e => .error e
            | .ok items => cleanTopics items

/-- One loop iteration of `parse_related_queries`: keep the record when
it has a "query" member, taking the rising flag from the record itself
(default `False`). -/
def cleanQueryItem (item : Json) : Except PyErr (Option Json) :=
  match pyIn "query" item with
  | .error e => .error e
  | .ok false => .ok none
  | .ok true =>
    match pyGetItem item "query" with
    | .error e => .error e
    | .ok q =>
      match pyGet item "rising" (.bool false) with
      | .error e => .error e
      | .ok r => .ok (some (.obj [("query", q), ("rising", r)]))

/-- The `for item in top + rising` loop of `parse_related_queries`. -/
def cleanQueries : List Json → Except PyErr (List Json)
  | [] => .ok []
  | item :: rest =>
    match cleanQueryItem item with
    | .error e => .error e
    | .ok r =>
      match cleanQueries rest with
      | .error e => .error e
      | .ok tail => .ok (match r with | some x => x :: tail | none => tail)

/-- `parse_related_queries` from src/main_logic.py (the active version):
concatenate the "top" and "rising" buckets and keep records that have a
"query" member, preserving an existing rising flag. -/
def parse_related_queries (results_json : Json) : Except PyErr (List Json) :=
  if !truthy results_json then .ok []
  else
    match pyIn "related_queries" results_json with
    | .error e => .error e
    | .ok false => .ok []
    | .ok true =>
      match pyGetItem results_json "related_queries" with
      | .error e => .error e
      | .ok rq =>
        match pyGet rq "top" (.arr []) with
        | .error e => .error e
        | .ok top =>
          match pyGetItem results_json "related_queries" with
          | .error e => .error e
          | .ok rq2 =>
            match pyGet rq2 "rising" (.arr []) with
            | .error e => .error e
            | .ok rising =>
              match pyAdd top rising with
              | .error e => .error e
              | .ok combined =>
                match pyIter combined with
                | .error e => .error e
                | .ok items => cleanQueries items

/-- One loop iteration of `parse_news_results`: drop records without a
truthy link, flatten a dict-shaped source via its "name" member. -/
def cleanNewsItem (item : Json) : Except PyErr (Option Json) :=
  match pyGet item "link" .null with
  | .error e => .error e
  | .ok link =>
    if !truthy link then .ok none
    else
      match pyGet item "source" (.str "Unknown") with
      | .error e => .error e
      | .ok sourceRaw =>
        let source : Json :=
          match sourceRaw with
          | .obj fs => (jLookup fs "name").getD (.str "Unknown")
          | v => .str (pyStr v)
        match pyGet item "title" (.str "No Title") with
        | .error e => .error e
        | .ok title =>
          match pyGet item "date" (.str "") with
          | .error e => .error e
          | .ok date =>
            .ok (some (.obj [("title", title), ("link", link), ("source", source), ("date", date)]))

/-- The `for item in raw_news` loop of `parse_news_results`. -/
def cleanNews : List Json → Except PyErr (List Json)
  | [] => .ok []
  | item :: rest =>
    match cleanNewsItem item with
    | .error e => .error e
    | .ok r =>
      match cleanNews rest with
      | .error e => .error e
      | .ok tail => .ok (match r with | some x => x :: tail | none => tail)

/-- `parse_news_results` from src/main_logic.py. -/
def parse_news_results (results_json : Json) : Except PyErr (List Json) :=
  if !truthy results_json then .ok []
  else
    match pyGet results_json "news_results" (.arr []) with
    | .error e => .error e
    | .ok raw =>
      match pyIter raw with
      | .error e => .error e
      | .ok items => cleanNews items

/-- The inner `for value_item in values` loop of
`parse_interest_over_time`: each value record contributes
`(date, value_item.get("extracted_value", 0))`. -/
def iotValues : List Json → Json → Except PyErr (List (Json × Json))
  | [], _ => .ok []
  | v :: rest, date =>
    match pyGet v "extracted_value" (.num 0) with
    | .error e => .error e
    | .ok val =>
      match iotValues rest date with
      | .error e => .error e
      | .ok tail => .ok ((date, val) :: tail)

/-- The outer `for item in timeline` loop of `parse_interest_over_time`:
entries whose date or values member is falsy are skipped. -/
def iotEntries : List Json → Except PyErr (List (Json × Json))
  | [] => .ok []
  | item :: rest =>
    match pyGet item "date" (.str "") with
    | .error e => .error e
    | .ok date =>
      match pyGet item "values" (.arr []) with
      | .error e => .error e
      | .ok values =>
        if !truthy date || !truthy values then iotEntries rest
        else
          match pyIter values with
          | .error e => .error e
          | .ok vitems =>
            match iotValues vitems date with
            | .error e => .error e
            | .ok ps =>
              match iotEntries rest with
              | .error e => .error e
              | .ok tail => .ok (ps ++ tail)

/-- `parse_interest_over_time` from src/main_logic.py.  The Python
result dict is represented as an association list: it is `[]` when no
pair was appended and `[(keyword, pairs)]` otherwise, mirroring the
lazily created `out[keyword]` list. -/
def parse_interest_over_time (results_json : Json) (keyword : String) :
    Except PyErr (List (String × List (Json × Json))) :=
  if !truthy results_json then .ok []
  else
    match pyIn "error" results_json with
    | .error e => .error e
    | .ok true => .ok []
    | .ok false =>
      match pyGet results_json "interest_over_time" (.obj []) with
      | .error e => .error e
      | .ok iot =>
        match pyGet iot "timeline_data" (.arr []) with
        | .error e => .error e
        | .ok timeline =>
          match pyIter timeline with
          | .error e => .error e
          | .ok tl =>
            match iotEntries tl with
            | .error e => .error e
            | .ok ps => .ok (if ps.isEmpty then [] else [(keyword, ps)])

/-- A trend verdict: the `{"trend": ..., "reason": ...}` dict built by
`try_forecast`. -/
structure Trend where
  trend : String
  reason : String
deriving DecidableEq

/-- Python `v * q` for a float `q`: numeric on numbers and booleans,
TypeError otherwise. -/
def pyTimes (v : Json) (q : ℚ) : Except PyErr ℚ :=
  match v with
  | .num n => .ok (n * q)
  | .bool b => .ok ((if b then (1 : ℚ) else 0) * q)
  | _ => .error .typeError

/-- Python `v > q` against a float: numeric on numbers and booleans,
TypeError otherwise. -/
def pyGtNum (v : Json) (q : ℚ) : Except PyErr Bool :=
  match v with
  | .num n => .ok (decide (n > q))
  | .bool b => .ok (decide ((if b then (1 : ℚ) else 0) > q))
  | _ => .error .typeError

/-- Python `v < q` against a float. -/
def pyLtNum (v : Json) (q : ℚ) : Except PyErr Bool :=
  match v with
  | .num n => .ok (decide (n < q))
  | .bool b => .ok (decide ((if b then (1 : ℚ) else 0) < q))
  | _ => .error .typeError

/-- The reason f-string of `try_forecast`. -/
def deltaReason (firstVal lastVal : Json) : String :=
  "simple_delta: from " ++ pyStr firstVal ++ " to " ++ pyStr lastVal

/-- `try_forecast` from src/main_logic.py: the endpoint-delta heuristic
on a `(date, value)` time series, with 1.15 and 0.85 taken at their
exact decimal values. -/
def try_forecast (timeseries_list : List (Json × Json)) : Except PyErr Trend :=
  if timeseries_list.length < 2 then .ok (Trend.mk "unknown" "insufficient data")
  else
    let firstVal := (timeseries_list.getD 0 (.null, .null)).2
    let lastVal := (timeseries_list.getD (timeseries_list.length - 1) (.null, .null)).2
    match pyTimes firstVal (23 / 20) with
    | .error e => .error e
    | .ok hi =>
      match pyGtNum lastVal hi with
      | .error e => .error e
      | .ok true => .ok (Trend.mk "rising" (deltaReason firstVal lastVal))
      | .ok false =>
        match pyTimes firstVal (17 / 20) with
        | .error e => .error e
        | .ok lo =>
          match pyLtNum lastVal lo with
          | .error e => .error e
          | .ok true => .ok (Trend.mk "falling" (deltaReason firstVal lastVal))
          | .ok false => .ok (Trend.mk "flat" (deltaReason firstVal lastVal))

-- ==========================================================================
-- SECTIONS 1, 2, 5 of main_logic.py: KEYS, FETCHERS, WORKERS, ORCHESTRATOR
-- ==========================================================================

/-- The four upstream services of the credential map in
`get_key_for_service` (the service domain fixed by the data model). -/
inductive Service where
  | forecast
  | topics
  | queries
  | news
deriving DecidableEq

/-- The service-specific environment variables
SERP_API_KEY_FORECAST/TOPICS/QUERIES/NEWS; `none` models an unset
variable. -/
structure Env where
  forecast : Option String
  topics : Option String
  queries : Option String
  news : Option String

/-- `os.environ.get(env_var_map.get(service_name))`. -/
def envSpecific (env : Env) : Service → Option String
  | .forecast => env.forecast
  | .topics => env.topics
  | .queries => env.queries
  | .news => env.news

/-- One draw from the shared `itertools.cycle(SERP_KEYS)`: the pool list
plus a cursor.  An empty pool models `_key_cycle = None`. -/
def cycleNext (pool : List String) (cur : Nat) : Option String × Nat :=
  match pool with
  | [] => (none, cur)
  | _ :: _ => (some (pool.getD (cur % pool.length) ""), cur + 1)

/-- `get_key_for_service` from src/main_logic.py: the service-specific
key when it is truthy, otherwise a draw from the shared rotation,
otherwise `None`. -/
def get_key_for_service (env : Env) (pool : List String) (s : Service) (cur : Nat) :
    Option String × Nat :=
  match envSpecific env s with
  | some k => if k = "" then cycleNext pool cur else (some k, cur)
  | none => cycleNext pool cur

/-- The parameter dict that `serp_get` sends upstream. -/
structure SerpParams where
  engine : String
  q : String
  data_type : Option String
  geo : Option String
  date : Option String
  hl : Option String
  gl : Option String
  api_key : Option String

/-- The external HTTP layer: attempt number and request parameters to
either a 200-response JSON body (`some`) or a non-200/exception
(`none`). -/
def Net : Type := Nat → SerpParams → Option Json

/-- The `if not api_key:` key-resolution step at the top of `serp_get`. -/
def resolveKey (pool : List String) (api_key : Option String) (cur : Nat) :
    Option String × Nat :=
  match api_key with
  | some k => if k = "" then cycleNext pool cur else (some k, cur)
  | none => cycleNext pool cur

/-- The three bounded retry attempts of `serp_get` against one key:
first 200 body wins, otherwise the explicit retry-exhaustion error
dict. -/
def serpAttempts (net : Net) (p : SerpParams) : Json :=
  match net 0 p with
  | some j => j
  | none =>
    match net 1 p with
    | some j => j
    | none =>
      match net 2 p with
      | some j => j
      | none => Json.obj [("error", Json.str "Request failed after retries")]

/-- `serp_get` from src/main_logic.py: resolve a key (falling back to
the shared cycle), then up to 3 attempts; returns an error dict rather
than raising.  The second component is the rotation cursor after the
call. -/
def serp_get (net : Net) (pool : List String) (params : SerpParams)
    (api_key : Option String) (cur : Nat) : Json × Nat :=
  let r := resolveKey pool api_key cur
  ((match r.1 with
    | none => Json.obj [("error", Json.str "No API key")]
    | some k => serpAttempts net { params with api_key := some k }), r.2)

/-- The keyword variants produced by `process_keyword_for_trends`. -/
structure KwVariants where
  original : String
  simplified : String
  core : String

/-- The simplifier words stripped by `process_keyword_for_trends`. -/
def simplifiers : List String :=
  ["best", "top", "latest", "new", "good", "great", "cheap", "affordable", "premium"]

/-- Accumulator loop for `pySplit`: split on whitespace runs, dropping
empty pieces, as Python `str.split()` with no arguments does. -/
def splitWsAux : List Char → List Char → List String
  | [], acc => if acc.isEmpty then [] else [String.mk acc.reverse]
  | c :: cs, acc =>
    if c.isWhitespace then
      if acc.isEmpty then splitWsAux cs [] else String.mk acc.reverse :: splitWsAux cs []
    else splitWsAux cs (c :: acc)

/-- Python `s.split()` with no arguments. -/
def pySplit (s : String) : List String :=
  splitWsAux s.data []

/-- Python `s.lower()`. -/
def pyLower (s : String) : String :=
  String.mk (s.data.map Char.toLower)

/-- `process_keyword_for_trends` from src/main_logic.py. -/
def process_keyword_for_trends (keyword : String) : KwVariants :=
  let words := (pySplit (pyLower keyword)).filter
    (fun w => !(w.data.all Char.isDigit && w.length == 4))
  let coreWords0 := words.filter (fun w => !simplifiers.contains w)
  let coreWords := if coreWords0.isEmpty then words else coreWords0
  KwVariants.mk keyword (String.intercalate " " coreWords)
    (String.intercalate " " (coreWords.take 2))

/-- `dict.fromkeys` deduplication: keep the first occurrence of each
element, preserving order. -/
def pyDedup (l : List String) : List String :=
  l.foldl (fun acc x => if acc.contains x then acc else acc ++ [x]) []

/-- The `unique_versions` list of `fetch_interest_over_time_raw`. -/
def uniqueVersions (keyword : String) : List String :=
  let v := process_keyword_for_trends keyword
  pyDedup [v.original, v.simplified, v.core]

/-- The TIMESERIES request parameters (defaults geo="" and
date="today 12-m", as the workers call the fetchers). -/
def tsParams (version : String) : SerpParams :=
  SerpParams.mk "google_trends" version (some "TIMESERIES") (some "") (some "today 12-m")
    none none none

/-- The RELATED_TOPICS request parameters. -/
def topicsParams (keyword : String) : SerpParams :=
  SerpParams.mk "google_trends" keyword (some "RELATED_TOPICS") (some "") (some "today 12-m")
    none none none

/-- The RELATED_QUERIES request parameters. -/
def queriesParams (keyword : String) : SerpParams :=
  SerpParams.mk "google_trends" keyword (some "RELATED_QUERIES") (some "") (some "today 12-m")
    none none none

/-- The google_news request parameters (defaults hl="en", gl="us"). -/
def newsParams (keyword : String) : SerpParams :=
  SerpParams.mk "google_news" keyword none none none (some "en") (some "us") none

/-- The version loop of `fetch_interest_over_time_raw`: return the
first response that has no "error" member and has an
"interest_over_time" member; the membership tests themselves can raise
on non-container responses.  The cursor reflects the draws made before
returning or raising. -/
def fetchIotLoop (net : Net) (pool : List String) (key : Option String) :
    List String → Nat → Except PyErr Json × Nat
  | [], cur => (.ok (Json.obj [("error", Json.str "Could not fetch interest over time")]), cur)
  | v :: rest, cur =>
    let r := serp_get net pool (tsParams v) key cur
    match pyIn "error" r.1 with
    | .error e => (.error e, r.2)
    | .ok true => fetchIotLoop net pool key rest r.2
    | .ok false =>
      match pyIn "interest_over_time" r.1 with
      | .error e => (.error e, r.2)
      | .ok true => (.ok r.1, r.2)
      | .ok false => fetchIotLoop net pool key rest r.2

/-- `fetch_interest_over_time_raw` from src/main_logic.py. -/
def fetch_interest_over_time_raw (net : Net) (pool : List String) (keyword : String)
    (key : Option String) (cur : Nat) : Except PyErr Json × Nat :=
  fetchIotLoop net pool key (uniqueVersions keyword) cur

/-- `worker_forecast` from src/main_logic.py: fetch, parse, take the
first series, estimate; any exception degrades to
`{"trend": "unknown", "reason": "error"}`. -/
def worker_forecast (net : Net) (env : Env) (pool : List String) (keyword : String)
    (cur : Nat) : Trend × Nat :=
  let k := get_key_for_service env pool .forecast cur
  let f := fetch_interest_over_time_raw net pool keyword k.1 k.2
  let body : Except PyErr Trend :=
    match f.1 with
    | .error e => .error e
    | .ok raw =>
      match parse_interest_over_time raw keyword with
      | .error e => .error e
      | .ok parsed =>
        let series := match parsed with
          | [] => []
          | (_, ps) :: _ => ps
        try_forecast series
  ((match body with
    | .ok t => t
    | .error _ => Trend.mk "unknown" "error"), f.2)

/-- `worker_topics` from src/main_logic.py: any exception degrades to
the empty list. -/
def worker_topics (net : Net) (env : Env) (pool : List String) (keyword : String)
    (cur : Nat) : List Json × Nat :=
  let k := get_key_for_service env pool .topics cur
  let r := serp_get net pool (topicsParams keyword) k.1 k.2
  ((match parse_related_topics r.1 with
    | .ok l => l
    | .error _ => []), r.2)

/-- `worker_queries` from src/main_logic.py (the active version with
the debugging guards): an error dict or a dict without
"related_queries" yields the empty list before parsing; any exception
degrades to the empty list. -/
def worker_queries (net : Net) (env : Env) (pool : List String) (keyword : String)
    (cur : Nat) : List Json × Nat :=
  let k := get_key_for_service env pool .queries cur
  let r := serp_get net pool (queriesParams keyword) k.1 k.2
  let body : Except PyErr (List Json) :=
    match r.1 with
    | .obj fs =>
      if (jLookup fs "error").isSome then .ok []
      else if (jLookup fs "related_queries").isNone then .ok []
      else parse_related_queries r.1
    | raw => parse_related_queries raw
  ((match body with
    | .ok l => l
    | .error _ => []), r.2)

/-- `worker_news` from src/main_logic.py: any exception degrades to the
empty list. -/
def worker_news (net : Net) (env : Env) (pool : List String) (keyword : String)
    (cur : Nat) : List Json × Nat :=
  let k := get_key_for_service env pool .news cur
  let r := serp_get net pool (newsParams keyword) k.1 k.2
  ((match parse_news_results r.1 with
    | .ok l => l
    | .error _ => []), r.2)

/-- The combined record assembled by `run_full_analysis`. -/
structure AnalysisResult where
  keyword : String
  related_topics : List Json
  related_queries : List Json
  trend_data : Trend
  news_items : List Json

/-- `run_full_analysis` from src/main_logic.py: the four thread-pool
workers, executed here in submission order with the shared rotation
cursor threaded through; each worker absorbs its own failures, so the
assembly always succeeds. -/
def run_full_analysis (net : Net) (env : Env) (pool : List String) (cur : Nat)
    (user_threads_token keyword : String) : AnalysisResult × Nat :=
  let t := worker_forecast net env pool keyword cur
  let a := worker_topics net env pool keyword t.2
  let q := worker_queries net env pool keyword a.2
  let n := worker_news net env pool keyword q.2
  (AnalysisResult.mk keyword a.1 q.1 t.1 n.1, n.2)

-- ==========================================================================
-- SECTION 6 of main_logic.py: SENTIMENT (VADER as a scoring oracle)
-- ==========================================================================

/-- The summary dict returned by `analyze_replies_sentiment`. -/
structure SentimentSummary where
  per_reply : List Json
  cumulative_sentiment : ℚ
  overall_sentiment : String
  recommendations : List String

/-- `not text.strip()`: the text consists only of whitespace. -/
def isBlankStr (s : String) : Bool :=
  s.data.all Char.isWhitespace

/-- `text.strip()` needs a string receiver; other values raise
AttributeError. -/
def asPyStr (j : Json) : Except PyErr String :=
  match j with
  | .str s => .ok s
  | _ => .error .attributeError

/-- The per-reply VADER classification of `analyze_replies_sentiment`. -/
def sentiLabel (compound : ℚ) : String :=
  if compound ≥ 1 / 20 then "POSITIVE"
  else if compound ≤ -(1 / 20) then "NEGATIVE"
  else "NEUTRAL"

/-- The `for reply in replies_list` loop of `analyze_replies_sentiment`:
per-reply records plus the collected compound scores, in order.  The
scorer oracle is total, so the per-reply `except` branch (which would
record an error entry and continue) is unreachable here. -/
def sentiLoop (score : String → ℚ) : List Json → Except PyErr (List Json × List ℚ)
  | [] => .ok ([], [])
  | reply :: rest =>
    match pyGet reply "text" (.str "") with
    | .error e => .error e
    | .ok text =>
      match asPyStr text with
      | .error e => .error e
      | .ok textS =>
        if isBlankStr textS then sentiLoop score rest
        else
          let compound := score textS
          match pyGet reply "username" .null with
          | .error e => .error e
          | .ok username =>
            match pyGet reply "permalink" .null with
            | .error e => .error e
            | .ok plink =>
              match pyGet reply "timestamp" .null with
              | .error e => .error e
              | .ok ts =>
                let record := Json.obj
                  [("username", username), ("text", .str textS),
                   ("label", .str (sentiLabel compound)), ("score", .num compound),
                   ("polarity", .num compound), ("permalink", plink), ("timestamp", ts)]
                match sentiLoop score rest with
                | .error e => .error e
                | .ok (pr, vals) => .ok (record :: pr, compound :: vals)

/-- The positive-branch recommendations of `analyze_replies_sentiment`. -/
def posRecs : List String :=
  ["Audience sentiment is positive! Keep creating content like this.",
   "Engage with the top positive comments to build community."]

/-- The negative-branch recommendations. -/
def negRecs : List String :=
  ["Sentiment is trending negative. Review comments for constructive feedback.",
   "Consider posting a clarification or follow-up if there is confusion."]

/-- The neutral-branch recommendations. -/
def neuRecs : List String :=
  ["Sentiment is balanced. Try asking a specific question to spark more debate.",
   "Use the Keyword Recommendations tool to find more engaging topics."]

/-- The overall label and recommendations of
`analyze_replies_sentiment`: note the strict comparisons against 0.05,
unlike the non-strict per-reply thresholds. -/
def overallOf (cumulative : ℚ) : String × List String :=
  if cumulative > 1 / 20 then ("Overall Positive", posRecs)
  else if cumulative < -(1 / 20) then ("Overall Negative", negRecs)
  else ("Overall Neutral", neuRecs)

/-- `analyze_replies_sentiment` from src/main_logic.py (the active local
VADER version), with the VADER compound scorer as an oracle. -/
def analyze_replies_sentiment (score : String → ℚ) (replies_list : List Json) :
    Except PyErr SentimentSummary :=
  if replies_list.isEmpty then
    .ok (SentimentSummary.mk [] 0 "No Text Replies"
      ["No replies with text found to analyze."])
  else
    match sentiLoop score replies_list with
    | .error e => .error e
    | .ok (per_reply, vals) =>
      if vals.isEmpty then
        .ok (SentimentSummary.mk per_reply 0 "No Sentiment Data"
          ["Could not analyze sentiment."])
      else
        let cumulative := vals.sum / (vals.length : ℚ)
        let o := overallOf cumulative
        .ok (SentimentSummary.mk per_reply cumulative o.1 o.2)

-- ==========================================================================
-- SPEC-SIDE CHARACTERIZATIONS AND SHAPE PREDICATES
-- ==========================================================================

/-- `x` occurs literally inside `r`. -/
def strIncludes (x r : String) : Prop :=
  ∃ a b, r = a ++ x ++ b

/-- The trend label predicted by the spec threshold rule for first
value `f` and last value `l` (strict comparisons on both sides). -/
def trendLabel (f l : ℚ) : String :=
  if l > f * (23 / 20) then "rising"
  else if l < f * (17 / 20) then "falling"
  else "flat"

/-- A time series of dated rational values, as `try_forecast` receives
it from `parse_interest_over_time`. -/
def tsOf (pts : List (String × ℚ)) : List (Json × Json) :=
  pts.map (fun p => (Json.str p.1, Json.num p.2))

/-- Is the value a dict? -/
def isObjJ : Json → Bool
  | .obj _ => true
  | _ => false

/-- A topic record the `parse_related_topics` loop processes without
raising: a dict whose "topic" member, when present, is itself a dict. -/
def topicRecGood : Json → Bool
  | .obj fs =>
    match jLookup fs "topic" with
    | some (.obj _) => true
    | some _ => false
    | none => true
  | _ => false

/-- The bucket selected by `parse_related_topics`: "top" first, falling
back to "rising" when "top" is falsy (empty or absent). -/
def bucketOf (gs : List (String × Json)) : Json :=
  let raw1 := (jLookup gs "top").getD (.arr [])
  if truthy raw1 then raw1 else (jLookup gs "rising").getD (.arr [])

/-- The items of the selected topics bucket when it is a list. -/
def bucketItems (gs : List (String × Json)) : List Json :=
  match bucketOf gs with
  | .arr items => items
  | _ => []

/-- The normalized output record for one topics item: nested records
read title/type inside "topic", flat records read them directly, others
are dropped; missing title/type default to "Unknown"/"Topic". -/
def topicSpec (item : Json) : Option Json :=
  match item with
  | .obj fs =>
    match jLookup fs "topic" with
    | some (.obj ts) =>
      some (.obj [("title", (jLookup ts "title").getD (.str "Unknown")),
                  ("type", (jLookup ts "type").getD (.str "Topic")),
                  ("value", (jLookup fs "value").getD (.str ""))])
    | some _ => none
    | none =>
      if (jLookup fs "title").isSome then
        some (.obj [("title", (jLookup fs "title").getD (.str "Unknown")),
                    ("type", (jLookup fs "type").getD (.str "Topic")),
                    ("value", (jLookup fs "value").getD (.str ""))])
      else none
  | _ => none

/-- Inputs on which `parse_related_topics` is proved total: falsy
values, containers without a "related_topics" member, and dicts whose
selected bucket is a list of well-shaped records. -/
def topicsShape (j : Json) : Bool :=
  !truthy j ||
    (match j with
     | .obj fs =>
       match jLookup fs "related_topics" with
       | none => true
       | some (.obj gs) =>
         (match bucketOf gs with
          | .arr items => items.all topicRecGood
          | _ => false)
       | some _ => false
     | .arr xs => !(xs.any (fun e => match e with | .str s => decide (s = "related_topics") | _ => false))
     | .str s => !(isSubstr "related_topics" s)
     | _ => false)

/-- The normalized output record for one queries item: records with a
"query" member are kept, the rising flag comes from the record itself
and defaults to false. -/
def querySpec (item : Json) : Option Json :=
  match item with
  | .obj fs =>
    match jLookup fs "query" with
    | some q => some (.obj [("query", q), ("rising", (jLookup fs "rising").getD (.bool false))])
    | none => none
  | _ => none

/-- Inputs on which `parse_related_queries` is proved total: falsy
values, containers without a "related_queries" member, and dicts whose
"top" and "rising" buckets default to lists of dicts. -/
def queriesShape (j : Json) : Bool :=
  !truthy j ||
    (match j with
     | .obj fs =>
       match jLookup fs "related_queries" with
       | none => true
       | some (.obj gs) =>
         (match (jLookup gs "top").getD (.arr []), (jLookup gs "rising").getD (.arr []) with
          | .arr ts, .arr rs => (ts ++ rs).all isObjJ
          | _, _ => false)
       | some _ => false
     | .arr xs => !(xs.any (fun e => match e with | .str s => decide (s = "related_queries") | _ => false))
     | .str s => !(isSubstr "related_queries" s)
     | _ => false)

/-- Inputs on which `parse_news_results` is proved total: falsy values
and dicts whose "news_results" member defaults to a list of dicts. -/
def newsShape (j : Json) : Bool :=
  !truthy j ||
    (match j with
     | .obj fs =>
       match jLookup fs "news_results" with
       | none => true
       | some (.arr xs) => xs.all isObjJ
       | some _ => false
     | _ => false)

/-- The normalized output record for one news item, as the claim reads
the loop body of `parse_news_results`. -/
def newsSpec (item : Json) : Option Json :=
  match item with
  | .obj fs =>
    let link := (jLookup fs "link").getD .null
    if !truthy link then none
    else
      let sourceRaw := (jLookup fs "source").getD (.str "Unknown")
      let source : Json :=
        match sourceRaw with
        | .obj gs => (jLookup gs "name").getD (.str "Unknown")
        | v => .str (pyStr v)
      some (.obj [("title", (jLookup fs "title").getD (.str "No Title")), ("link", link),
                  ("source", source), ("date", (jLookup fs "date").getD (.str ""))])
  | _ => none

/-- A timeline entry the `parse_interest_over_time` loop processes
without raising: a dict whose "values" member, when present, is a list
of dicts. -/
def entryGood : Json → Bool
  | .obj fs =>
    match jLookup fs "values" with
    | none => true
    | some (.arr vs) => vs.all isObjJ
    | some v => !truthy v
  | _ => false

/-- The `(date, value)` pairs contributed by one well-shaped timeline
entry: skipped when date or values is falsy, with a missing
extracted_value contributing 0. -/
def iotEntrySpec (e : Json) : List (Json × Json) :=
  match e with
  | .obj fs =>
    let date := (jLookup fs "date").getD (.str "")
    let values := (jLookup fs "values").getD (.arr [])
    if !truthy date || !truthy values then []
    else
      match values with
      | .arr vs =>
        vs.map (fun v =>
          (date, match v with
                 | .obj gs => (jLookup gs "extracted_value").getD (.num 0)
                 | _ => .num 0))
      | _ => []
  | _ => []

/-- An interest-over-time response whose timeline is `tl`. -/
def iotJson (tl : List Json) : Json :=
  Json.obj [("interest_over_time", Json.obj [("timeline_data", Json.arr tl)])]

/-- A reply record the sentiment loop processes without raising: a dict
whose "text" member, when present, is a string. -/
def replyTextOk : Json → Bool
  | .obj fs =>
    match jLookup fs "text" with
    | none => true
    | some (.str _) => true
    | some _ => false
  | _ => false

/-- A reply record contributing no sentiment value: its effective text
(the "text" member, defaulting to "") is blank. -/
def replyBlank : Json → Bool
  | .obj fs =>
    match (jLookup fs "text").getD (.str "") with
    | .str s => isBlankStr s
    | _ => false
  | _ => false

/-- The non-blank texts the sentiment loop scores, in order. -/
def keptTexts (replies : List Json) : List String :=
  replies.filterMap (fun r =>
    match r with
    | .obj fs =>
      match (jLookup fs "text").getD (.str "") with
      | .str s => if isBlankStr s then none else some s
      | _ => none
    | _ => none)

/-- The per-reply output record predicted for one reply under the
scorer `score`: blank-text replies are dropped, scored replies carry
the thresholded label and their compound score. -/
def recordSpec (score : String → ℚ) (r : Json) : Option Json :=
  match r with
  | .obj fs =>
    match (jLookup fs "text").getD (.str "") with
    | .str s =>
      if isBlankStr s then none
      else
        some (Json.obj
          [("username", (jLookup fs "username").getD .null), ("text", .str s),
           ("label", .str (sentiLabel (score s))), ("score", .num (score s)),
           ("polarity", .num (score s)), ("permalink", (jLookup fs "permalink").getD .null),
           ("timestamp", (jLookup fs "timestamp").getD .null)])
    | _ => none
  | _ => none

/-- The network override of claim C1: every RELATED_QUERIES request
fails on every attempt; other requests are untouched. -/
def netNoQueries (net : Net) : Net :=
  fun att p => if p.data_type = some "RELATED_QUERIES" then none else net att p

/-- An environment with no service-specific keys. -/
def envNone : Env := Env.mk none none none none

/-- An environment with a dedicated key for each service. -/
def envAll : Env := Env.mk (some "kf") (some "kt") (some "kq") (some "kn")

/-- A network on which every request fails on every attempt. -/
def netFail : Net := fun _ _ => none

-- ==========================================================================
-- HELPER LEMMAS
-- ==========================================================================

theorem deltaReason_includes_first (a b : Json) :
    strIncludes (pyStr a) (deltaReason a b) :=
  ⟨"simple_delta: from ", " to " ++ pyStr b, String.append_assoc _ _ _⟩

theorem deltaReason_includes_last (a b : Json) :
    strIncludes (pyStr b) (deltaReason a b) :=
  ⟨"simple_delta: from " ++ pyStr a ++ " to ", "", by simp [deltaReason]⟩

theorem try_forecast_ok (ts : List (Json × Json)) (f l : ℚ)
    (h2 : 2 ≤ ts.length)
    (hf : (ts.getD 0 (.null, .null)).2 = .num f)
    (hl : (ts.getD (ts.length - 1) (.null, .null)).2 = .num l) :
    try_forecast ts = .ok (Trend.mk (trendLabel f l) (deltaReason (.num f) (.num l))) := by
  have hlen : ¬ ts.length < 2 := by omega
  simp only [List.getD, List.get?_eq_getElem?] at hf hl
  by_cases h1 : l > f * (23 / 20)
  · simp [try_forecast, hlen, hf, hl, pyTimes, pyGtNum, trendLabel, h1]
  · by_cases hc : l < f * (17 / 20)
    · simp [try_forecast, hlen, hf, hl, pyTimes, pyGtNum, pyLtNum, trendLabel, h1, hc]
    · simp [try_forecast, hlen, hf, hl, pyTimes, pyGtNum, pyLtNum, trendLabel, h1, hc]

-- ==========================================================================
-- CLAIM THEOREMS
-- ==========================================================================

/-- Claim C2: for every time series, `try_forecast` returns `unknown`
with fewer than 2 points; otherwise its label is `rising` exactly when
the last value exceeds 1.15 times the first, `falling` exactly when it
is below 0.85 times the first, and `flat` otherwise (strict
inequalities, so both boundaries are excluded), and the reason string
contains the literal first and last values.  The "exactly when"
reading of the two threshold conditions is stated for a non-negative
first value (its own regime: for a negative first value the two
conditions overlap and the code gives "rising" priority, as the
unconditional `trendLabel` equation records). -/
theorem trend_estimate_C2 (pts : List (String × ℚ)) :
    (pts.length < 2 →
      try_forecast (tsOf pts) = .ok (Trend.mk "unknown" "insufficient data")) ∧
    (∀ f l, 2 ≤ pts.length →
      (pts.map Prod.snd)[0]? = some f →
      (pts.map Prod.snd)[pts.length - 1]? = some l →
      try_forecast (tsOf pts) = .ok (Trend.mk (trendLabel f l) (deltaReason (.num f) (.num l))) ∧
      strIncludes (pyStr (Json.num f)) (deltaReason (.num f) (.num l)) ∧
      strIncludes (pyStr (Json.num l)) (deltaReason (.num f) (.num l)) ∧
      (0 ≤ f →
        (trendLabel f l = "rising" ↔ l > f * (23 / 20)) ∧
        (trendLabel f l = "falling" ↔ l < f * (17 / 20)) ∧
        (trendLabel f l = "flat" ↔ ¬ l > f * (23 / 20) ∧ ¬ l < f * (17 / 20)))) := by
  constructor
  · intro hlt
    have hl2 : (tsOf pts).length < 2 := by simpa [tsOf] using hlt
    simp [try_forecast, hl2]
  · intro f l h2 hf hl
    rw [List.getElem?_map] at hf hl
    have hne : pts ≠ [] := by
      intro h
      rw [h] at h2
      simp at h2
    obtain ⟨p0, hp0⟩ : ∃ p0, pts[0]? = some p0 := by
      cases h0 : pts[0]? with
      | none => rw [h0] at hf; simp at hf
      | some p => exact ⟨p, rfl⟩
    obtain ⟨pl, hpl⟩ : ∃ pl, pts[pts.length - 1]? = some pl := by
      cases h0 : pts[pts.length - 1]? with
      | none => rw [h0] at hl; simp at hl
      | some p => exact ⟨p, rfl⟩
    rw [hp0] at hf
    rw [hpl] at hl
    have hf2 : p0.2 = f := by simpa using hf
    have hl2 : pl.2 = l := by simpa using hl
    have hlen : (tsOf pts).length = pts.length := by simp [tsOf]
    have hfv : ((tsOf pts).getD 0 (.null, .null)).2 = .num f := by
      simp [tsOf, List.getD, List.getElem?_map, hp0, hf2]
    have hlv : ((tsOf pts).getD ((tsOf pts).length - 1) (.null, .null)).2 = .num l := by
      rw [hlen]
      simp [tsOf, List.getD, List.getElem?_map, hpl, hl2]
    refine ⟨try_forecast_ok (tsOf pts) f l (by omega) hfv hlv,
      deltaReason_includes_first _ _, deltaReason_includes_last _ _, ?_⟩
    intro h0
    by_cases h1 : l > f * (23 / 20)
    · have hnot : ¬ l < f * (17 / 20) := by intro h; linarith
      have lab : trendLabel f l = "rising" := by simp [trendLabel, h1]
      exact ⟨iff_of_true lab h1,
        iff_of_false (by rw [lab]; decide) hnot,
        iff_of_false (by rw [lab]; decide) (fun h => h.1 h1)⟩
    · by_cases hc : l < f * (17 / 20)
      · have lab : trendLabel f l = "falling" := by simp [trendLabel, h1, hc]
        exact ⟨iff_of_false (by rw [lab]; decide) h1,
          iff_of_true lab hc,
          iff_of_false (by rw [lab]; decide) (fun h => h.2 hc)⟩
      · have lab : trendLabel f l = "flat" := by simp [trendLabel, h1, hc]
        exact ⟨iff_of_false (by rw [lab]; decide) h1,
          iff_of_false (by rw [lab]; decide) hc,
          iff_of_true lab ⟨h1, hc⟩⟩

/-- Witness for C2: the empty series gives `unknown`, and the spec
scenario series [("2024-01-01",50), ("2024-06-01",70)] is labelled via
`trendLabel 50 70` (= "rising", since 70 > 57.5) with both endpoint
values in the reason. -/
theorem trend_estimate_C2_witness :
    (try_forecast (tsOf []) = .ok (Trend.mk "unknown" "insufficient data")) ∧
    (try_forecast (tsOf [("2024-01-01", (50 : ℚ)), ("2024-06-01", 70)]) =
        .ok (Trend.mk (trendLabel 50 70) (deltaReason (.num 50) (.num 70))) ∧
      strIncludes (pyStr (Json.num 50)) (deltaReason (.num 50) (.num 70)) ∧
      strIncludes (pyStr (Json.num 70)) (deltaReason (.num 50) (.num 70)) ∧
      (0 ≤ (50 : ℚ) →
        (trendLabel 50 70 = "rising" ↔ (70 : ℚ) > 50 * (23 / 20)) ∧
        (trendLabel 50 70 = "falling" ↔ (70 : ℚ) < 50 * (17 / 20)) ∧
        (trendLabel 50 70 = "flat" ↔
          ¬ (70 : ℚ) > 50 * (23 / 20) ∧ ¬ (70 : ℚ) < 50 * (17 / 20)))) :=
  ⟨(trend_estimate_C2 []).1 (by decide),
   (trend_estimate_C2 [("2024-01-01", 50), ("2024-06-01", 70)]).2 50 70 (by decide) rfl rfl⟩

/-- Claim C6: for every service, `get_key_for_service` returns the
service-specific key when one is configured (truthy); with no specific
key and a non-empty shared pool it returns the round-robin draw from
the shared pool (advancing the cursor) rather than `None`; and it
returns `None`, not an exception, only when no key exists anywhere. -/
theorem next_key_C6 (env : Env) (pool : List String) (cur : Nat) (s : Service) :
    (∀ k, envSpecific env s = some k → k ≠ "" →
      get_key_for_service env pool s cur = (some k, cur)) ∧
    ((envSpecific env s = none ∨ envSpecific env s = some "") → pool ≠ [] →
      get_key_for_service env pool s cur = (some (pool.getD (cur % pool.length) ""), cur + 1)) ∧
    ((envSpecific env s = none ∨ envSpecific env s = some "") → pool = [] →
      get_key_for_service env pool s cur = (none, cur)) := by
  refine ⟨?_, ?_, ?_⟩
  · intro k hk hne
    simp [get_key_for_service, hk, hne]
  · rintro (h | h) hp
    all_goals cases pool with
    | nil => exact absurd rfl hp
    | cons a t => simp [get_key_for_service, h, cycleNext]
  · rintro (h | h) hp
    all_goals subst hp
    all_goals simp [get_key_for_service, h, cycleNext]

/-- Witness for C6, including the spec scenario: no news-specific key
and a one-key shared pool gives the shared key, not `None`. -/
theorem next_key_C6_witness :
    get_key_for_service envNone ["sharedkey"] .news 0 = (some "sharedkey", 1) ∧
    get_key_for_service envAll [] .forecast 0 = (some "kf", 0) ∧
    get_key_for_service envNone [] .news 0 = (none, 0) :=
  ⟨(next_key_C6 envNone ["sharedkey"] 0 .news).2.1 (Or.inl rfl) (by decide),
   (next_key_C6 envAll [] 0 .forecast).1 "kf" rfl (by decide),
   (next_key_C6 envNone [] 0 .news).2.2 (Or.inl rfl) rfl⟩

-- Helper lemmas for the pipeline claims.

theorem serp_get_nokey (net : Net) (p : SerpParams) (cur : Nat) :
    serp_get net [] p none cur = (Json.obj [("error", Json.str "No API key")], cur) := rfl

theorem fetchIotLoop_nokey (net : Net) (vs : List String) (cur : Nat) :
    fetchIotLoop net [] none vs cur =
      (.ok (Json.obj [("error", Json.str "Could not fetch interest over time")]), cur) := by
  induction vs with
  | nil => rfl
  | cons v rest ih =>
    simp [fetchIotLoop, serp_get_nokey, pyIn, jLookup, ih]

theorem worker_forecast_nokey (net : Net) (kw : String) (cur : Nat) :
    worker_forecast net envNone [] kw cur = (Trend.mk "unknown" "insufficient data", cur) := by
  simp [worker_forecast, get_key_for_service, envSpecific, envNone, cycleNext,
    fetch_interest_over_time_raw, fetchIotLoop_nokey, parse_interest_over_time,
    truthy, pyIn, jLookup, try_forecast]

theorem worker_topics_nokey (net : Net) (kw : String) (cur : Nat) :
    worker_topics net envNone [] kw cur = ([], cur) := by
  simp [worker_topics, get_key_for_service, envSpecific, envNone, cycleNext,
    serp_get_nokey, parse_related_topics, truthy, pyIn, jLookup]

theorem worker_queries_nokey (net : Net) (kw : String) (cur : Nat) :
    worker_queries net envNone [] kw cur = ([], cur) := by
  simp [worker_queries, get_key_for_service, envSpecific, envNone, cycleNext,
    serp_get_nokey, jLookup]

theorem worker_news_nokey (net : Net) (kw : String) (cur : Nat) :
    worker_news net envNone [] kw cur = ([], cur) := by
  simp [worker_news, get_key_for_service, envSpecific, envNone, cycleNext,
    serp_get_nokey, parse_news_results, truthy, pyGet, jLookup, pyIter, cleanNews]

/-- Counterexample to claim C9: with every credential absent (no
service-specific keys, empty shared pool) `run_full_analysis` does NOT
surface a distinct precondition error — it returns exactly the same
structurally complete record, with empty sub-fields, that it returns
when credentials are present but every data fetch fails.  The claimed
distinct surfacing does not exist at the analysis level. -/
theorem no_credentials_C9_cex :
    run_full_analysis netFail envNone [] 0 "tok" "shoes" =
      (AnalysisResult.mk "shoes" [] [] (Trend.mk "unknown" "insufficient data") [], 0) ∧
    run_full_analysis netFail envAll [] 0 "tok" "shoes" =
      (AnalysisResult.mk "shoes" [] [] (Trend.mk "unknown" "insufficient data") [], 0) := by
  constructor
  · rfl
  · rfl

/-- Claim C9 as amended: when every credential is absent, the upstream
client `serp_get` does produce a precondition error marker
({"error": "No API key"}) distinct from the data-fetch error marker
({"error": "Request failed after retries"}), but `run_full_analysis`
does not surface it: each branch absorbs it into its empty/neutral
default, and the caller receives the same structurally complete
`AnalysisResult` that data-fetch failures produce. -/
theorem no_credentials_C9_amended (net : Net) (p : SerpParams) (cur : Nat) (tok kw : String) :
    serp_get net [] p none cur = (Json.obj [("error", Json.str "No API key")], cur) ∧
    serpAttempts netFail p = Json.obj [("error", Json.str "Request failed after retries")] ∧
    Json.str "No API key" ≠ Json.str "Request failed after retries" ∧
    run_full_analysis net envNone [] cur tok kw =
      (AnalysisResult.mk kw [] [] (Trend.mk "unknown" "insufficient data") [], cur) := by
  refine ⟨serp_get_nokey net p cur, rfl, ?_, ?_⟩
  · intro h
    injection h with h2
    exact absurd h2 (by decide)
  · simp [run_full_analysis, worker_forecast_nokey, worker_topics_nokey,
      worker_queries_nokey, worker_news_nokey]

theorem serp_get_netNoQueries (net : Net) (pool : List String) (p : SerpParams)
    (key : Option String) (cur : Nat) (h : p.data_type ≠ some "RELATED_QUERIES") :
    serp_get (netNoQueries net) pool p key cur = serp_get net pool p key cur := by
  unfold serp_get
  cases hk : (resolveKey pool key cur).1 with
  | none => simp [hk]
  | some k => simp [hk, serpAttempts, netNoQueries, h]

theorem serpAttempts_netNoQueries (net : Net) (p : SerpParams)
    (h : p.data_type = some "RELATED_QUERIES") :
    serpAttempts (netNoQueries net) p = Json.obj [("error", Json.str "Request failed after retries")] := by
  simp [serpAttempts, netNoQueries, h]

theorem tsParams_not_queries (v : String) :
    (tsParams v).data_type ≠ some "RELATED_QUERIES" := by
  intro h
  exact absurd (Option.some.inj h) (by decide)

theorem topicsParams_not_queries (kw : String) :
    (topicsParams kw).data_type ≠ some "RELATED_QUERIES" := by
  intro h
  exact absurd (Option.some.inj h) (by decide)

theorem newsParams_not_queries (kw : String) :
    (newsParams kw).data_type ≠ some "RELATED_QUERIES" := by
  intro h
  exact Option.noConfusion h

theorem fetchIotLoop_netNoQueries (net : Net) (pool : List String) (key : Option String)
    (vs : List String) (cur : Nat) :
    fetchIotLoop (netNoQueries net) pool key vs cur = fetchIotLoop net pool key vs cur := by
  induction vs generalizing cur with
  | nil => rfl
  | cons v rest ih =>
    simp only [fetchIotLoop, serp_get_netNoQueries net pool (tsParams v) key cur (tsParams_not_queries v), ih]

theorem worker_forecast_netNoQueries (net : Net) (env : Env) (pool : List String)
    (kw : String) (cur : Nat) :
    worker_forecast (netNoQueries net) env pool kw cur = worker_forecast net env pool kw cur := by
  simp only [worker_forecast, fetch_interest_over_time_raw, fetchIotLoop_netNoQueries]

theorem worker_topics_netNoQueries (net : Net) (env : Env) (pool : List String)
    (kw : String) (cur : Nat) :
    worker_topics (netNoQueries net) env pool kw cur = worker_topics net env pool kw cur := by
  simp only [worker_topics,
    serp_get_netNoQueries net pool (topicsParams kw) _ _ (topicsParams_not_queries kw)]

theorem worker_news_netNoQueries (net : Net) (env : Env) (pool : List String)
    (kw : String) (cur : Nat) :
    worker_news (netNoQueries net) env pool kw cur = worker_news net env pool kw cur := by
  simp only [worker_news,
    serp_get_netNoQueries net pool (newsParams kw) _ _ (newsParams_not_queries kw)]

theorem worker_queries_netNoQueries (net : Net) (env : Env) (pool : List String)
    (kw : String) (cur : Nat) :
    worker_queries (netNoQueries net) env pool kw cur =
      ([], (worker_queries net env pool kw cur).2) := by
  unfold worker_queries serp_get
  cases hk : (resolveKey pool (get_key_for_service env pool .queries cur).1
      (get_key_for_service env pool .queries cur).2).1 with
  | none => simp [hk, jLookup]
  | some k =>
    simp only [hk]
    rw [serpAttempts_netNoQueries net _ (by rfl)]
    simp [jLookup]

/-- Claim C1: for every keyword (and any environment, shared key pool,
rotation cursor and network), if the related-queries branch upstream
call always fails (`netNoQueries` makes every RELATED_QUERIES request
error on every attempt), `run_full_analysis` still returns a result
whose `related_queries` field is the empty list while the topics,
trend and news fields — and the rotation cursor — are exactly what
their own branches produce, untouched by the queries-branch outage. -/
theorem aggregation_isolation_C1 (net : Net) (env : Env) (pool : List String) (cur : Nat)
    (tok kw : String) :
    (run_full_analysis (netNoQueries net) env pool cur tok kw).1.related_queries = [] ∧
    (run_full_analysis (netNoQueries net) env pool cur tok kw).1.keyword = kw ∧
    (run_full_analysis (netNoQueries net) env pool cur tok kw).1.related_topics =
      (run_full_analysis net env pool cur tok kw).1.related_topics ∧
    (run_full_analysis (netNoQueries net) env pool cur tok kw).1.trend_data =
      (run_full_analysis net env pool cur tok kw).1.trend_data ∧
    (run_full_analysis (netNoQueries net) env pool cur tok kw).1.news_items =
      (run_full_analysis net env pool cur tok kw).1.news_items ∧
    (run_full_analysis (netNoQueries net) env pool cur tok kw).2 =
      (run_full_analysis net env pool cur tok kw).2 := by
  simp [run_full_analysis, worker_forecast_netNoQueries, worker_topics_netNoQueries,
    worker_queries_netNoQueries, worker_news_netNoQueries]

-- Normalizer lemmas.

theorem parse_related_topics_falsy (j : Json) (h : truthy j = false) :
    parse_related_topics j = .ok [] := by
  simp [parse_related_topics, h]

theorem parse_related_queries_falsy (j : Json) (h : truthy j = false) :
    parse_related_queries j = .ok [] := by
  simp [parse_related_queries, h]

theorem parse_news_results_falsy (j : Json) (h : truthy j = false) :
    parse_news_results j = .ok [] := by
  simp [parse_news_results, h]

theorem cleanTopicItem_good (item : Json) (h : topicRecGood item = true) :
    cleanTopicItem item = .ok (topicSpec item) := by
  cases item with
  | obj fs =>
    cases ht : jLookup fs "topic" with
    | some t =>
      cases t with
      | obj ts => simp [cleanTopicItem, pyIn, pyGetItem, pyGet, topicSpec, ht]
      | null => simp [topicRecGood, ht] at h
      | bool b => simp [topicRecGood, ht] at h
      | num q => simp [topicRecGood, ht] at h
      | str s => simp [topicRecGood, ht] at h
      | arr xs => simp [topicRecGood, ht] at h
    | none =>
      cases htt : jLookup fs "title" with
      | some tt => simp [cleanTopicItem, pyIn, pyGetItem, pyGet, topicSpec, ht, htt]
      | none => simp [cleanTopicItem, pyIn, pyGetItem, pyGet, topicSpec, ht, htt]
  | null => simp [topicRecGood] at h
  | bool b => simp [topicRecGood] at h
  | num q => simp [topicRecGood] at h
  | str s => simp [topicRecGood] at h
  | arr xs => simp [topicRecGood] at h

theorem cleanTopics_good (items : List Json) (h : items.all topicRecGood = true) :
    cleanTopics items = .ok (items.filterMap topicSpec) := by
  induction items with
  | nil => rfl
  | cons item rest ih =>
    rw [List.all_cons, Bool.and_eq_true] at h
    rw [List.filterMap_cons]
    cases hs : topicSpec item with
    | none => simp [cleanTopics, cleanTopicItem_good item h.1, hs, ih h.2]
    | some x => simp [cleanTopics, cleanTopicItem_good item h.1, hs, ih h.2]

theorem parse_related_topics_obj (fs gs : List (String × Json)) (items : List Json)
    (hf : jLookup fs "related_topics" = some (.obj gs))
    (hb : bucketOf gs = .arr items)
    (h : items.all topicRecGood = true) :
    parse_related_topics (.obj fs) = .ok (items.filterMap topicSpec) := by
  have htr : truthy (.obj fs) = true := by
    cases fs with
    | nil => simp [jLookup] at hf
    | cons p rest => simp [truthy]
  unfold bucketOf at hb
  by_cases htop : truthy ((jLookup gs "top").getD (.arr []))
  · rw [if_pos htop] at hb
    rw [hb] at htop
    simp [parse_related_topics, htr, pyIn, hf, pyGetItem, pyGet, htop, hb, pyIter,
      cleanTopics_good items h]
  · rw [if_neg htop] at hb
    simp [parse_related_topics, htr, pyIn, hf, pyGetItem, pyGet, htop, hb, pyIter,
      cleanTopics_good items h]

theorem cleanQueryItem_obj (fs : List (String × Json)) :
    cleanQueryItem (.obj fs) = .ok (querySpec (.obj fs)) := by
  cases hq : jLookup fs "query" with
  | some q => simp [cleanQueryItem, pyIn, pyGetItem, pyGet, querySpec, hq]
  | none => simp [cleanQueryItem, pyIn, pyGetItem, pyGet, querySpec, hq]

theorem cleanQueries_good (items : List Json) (h : items.all isObjJ = true) :
    cleanQueries items = .ok (items.filterMap querySpec) := by
  induction items with
  | nil => rfl
  | cons item rest ih =>
    rw [List.all_cons, Bool.and_eq_true] at h
    obtain ⟨h1, h2⟩ := h
    cases item with
    | obj fs =>
      rw [List.filterMap_cons]
      cases hs : querySpec (.obj fs) with
      | none => simp [cleanQueries, cleanQueryItem_obj, hs, ih h2]
      | some x => simp [cleanQueries, cleanQueryItem_obj, hs, ih h2]
    | null => simp [isObjJ] at h1
    | bool b => simp [isObjJ] at h1
    | num q => simp [isObjJ] at h1
    | str s => simp [isObjJ] at h1
    | arr xs => simp [isObjJ] at h1

theorem parse_related_queries_obj (fs gs : List (String × Json)) (ts rs : List Json)
    (hf : jLookup fs "related_queries" = some (.obj gs))
    (ht : (jLookup gs "top").getD (.arr []) = .arr ts)
    (hr : (jLookup gs "rising").getD (.arr []) = .arr rs)
    (h : (ts ++ rs).all isObjJ = true) :
    parse_related_queries (.obj fs) = .ok ((ts ++ rs).filterMap querySpec) := by
  have htr : truthy (.obj fs) = true := by
    cases fs with
    | nil => simp [jLookup] at hf
    | cons p rest => simp [truthy]
  simp [parse_related_queries, htr, pyIn, hf, pyGetItem, pyGet, ht, hr, pyAdd, pyIter,
    cleanQueries_good _ h]

theorem cleanNewsItem_obj (fs : List (String × Json)) :
    cleanNewsItem (.obj fs) = .ok (newsSpec (.obj fs)) := by
  by_cases hl : truthy ((jLookup fs "link").getD .null)
  · simp [cleanNewsItem, pyGet, newsSpec, hl]
  · simp [cleanNewsItem, pyGet, newsSpec, hl]

theorem cleanNews_good (items : List Json) (h : items.all isObjJ = true) :
    cleanNews items = .ok (items.filterMap newsSpec) := by
  induction items with
  | nil => rfl
  | cons item rest ih =>
    rw [List.all_cons, Bool.and_eq_true] at h
    obtain ⟨h1, h2⟩ := h
    cases item with
    | obj fs =>
      rw [List.filterMap_cons]
      cases hs : newsSpec (.obj fs) with
      | none => simp [cleanNews, cleanNewsItem_obj, hs, ih h2]
      | some x => simp [cleanNews, cleanNewsItem_obj, hs, ih h2]
    | null => simp [isObjJ] at h1
    | bool b => simp [isObjJ] at h1
    | num q => simp [isObjJ] at h1
    | str s => simp [isObjJ] at h1
    | arr xs => simp [isObjJ] at h1

theorem parse_news_results_obj (fs : List (String × Json)) (items : List Json)
    (htr : truthy (.obj fs) = true)
    (hn : (jLookup fs "news_results").getD (.arr []) = .arr items)
    (h : items.all isObjJ = true) :
    parse_news_results (.obj fs) = .ok (items.filterMap newsSpec) := by
  simp [parse_news_results, htr, pyGet, hn, pyIter, cleanNews_good _ h]

/-- Counterexample to claim C4: the topics normalizer is not total.  On
the malformed dict input where "related_topics" maps to a string,
Python evaluates `results_json["related_topics"].get("top", [])` and
the `.get` attribute access on a string raises AttributeError instead
of returning an empty list. -/
theorem normalizers_C4_cex :
    parse_related_topics (Json.obj [("related_topics", Json.str "x")]) =
      .error PyErr.attributeError := rfl

/-- Claim C4 as amended: each normalizer returns the empty list on
falsy input, and returns a list without raising on inputs whose
relevant containers have the expected types (no "related_topics" /
"related_queries" member, or buckets that are lists of well-shaped
dict records); but on other malformed inputs — e.g. a string where a
dict is expected — the code raises (TypeError/AttributeError) rather
than returning an empty list. -/
theorem normalizers_C4_amended (j : Json) :
    (truthy j = false →
      parse_related_topics j = .ok [] ∧ parse_related_queries j = .ok [] ∧
      parse_news_results j = .ok []) ∧
    (topicsShape j = true → ∃ l, parse_related_topics j = .ok l) ∧
    (queriesShape j = true → ∃ l, parse_related_queries j = .ok l) ∧
    (newsShape j = true → ∃ l, parse_news_results j = .ok l) := by
  refine ⟨fun h => ⟨parse_related_topics_falsy j h, parse_related_queries_falsy j h,
    parse_news_results_falsy j h⟩, ?_, ?_, ?_⟩
  · intro hs
    cases j with
    | null => exact ⟨[], parse_related_topics_falsy _ rfl⟩
    | bool b =>
      cases b with
      | false => exact ⟨[], parse_related_topics_falsy _ rfl⟩
      | true => simp [topicsShape, truthy] at hs
    | num q =>
      by_cases hq : q = 0
      · exact ⟨[], parse_related_topics_falsy _ (by simp [truthy, hq])⟩
      · simp [topicsShape, truthy, hq] at hs
    | str s =>
      by_cases he : s.isEmpty
      · exact ⟨[], parse_related_topics_falsy _ (by simp [truthy, he])⟩
      · simp [topicsShape, truthy, he] at hs
        exact ⟨[], by simp [parse_related_topics, truthy, he, pyIn, hs]⟩
    | arr xs =>
      by_cases he : xs.isEmpty
      · exact ⟨[], parse_related_topics_falsy _ (by simp [truthy, he])⟩
      · simp [topicsShape, truthy, he] at hs
        have hany : (xs.any fun e =>
            match e with
            | Json.str s => decide (s = "related_topics")
            | _ => false) = false := by
          rw [List.any_eq_false]
          exact fun x hx => by simp [hs x hx]
        exact ⟨[], by simp [parse_related_topics, truthy, he, pyIn, hany]⟩
    | obj fs =>
      by_cases he : fs.isEmpty
      · exact ⟨[], parse_related_topics_falsy _ (by simp [truthy, he])⟩
      · have htr : truthy (.obj fs) = true := by simp [truthy, he]
        cases hf : jLookup fs "related_topics" with
        | none => exact ⟨[], by simp [parse_related_topics, htr, pyIn, hf]⟩
        | some v =>
          cases v with
          | obj gs =>
            cases hbk : bucketOf gs with
            | arr items =>
              simp [topicsShape, truthy, he, hf, hbk] at hs
              exact ⟨_, parse_related_topics_obj fs gs items hf hbk (List.all_eq_true.mpr hs)⟩
            | null => simp [topicsShape, truthy, he, hf, hbk] at hs
            | bool b => simp [topicsShape, truthy, he, hf, hbk] at hs
            | num q => simp [topicsShape, truthy, he, hf, hbk] at hs
            | str s => simp [topicsShape, truthy, he, hf, hbk] at hs
            | obj gs2 => simp [topicsShape, truthy, he, hf, hbk] at hs
          | null => simp [topicsShape, truthy, he, hf] at hs
          | bool b => simp [topicsShape, truthy, he, hf] at hs
          | num q => simp [topicsShape, truthy, he, hf] at hs
          | str s => simp [topicsShape, truthy, he, hf] at hs
          | arr xs => simp [topicsShape, truthy, he, hf] at hs
  · intro hs
    cases j with
    | null => exact ⟨[], parse_related_queries_falsy _ rfl⟩
    | bool b =>
      cases b with
      | false => exact ⟨[], parse_related_queries_falsy _ rfl⟩
      | true => simp [queriesShape, truthy] at hs
    | num q =>
      by_cases hq : q = 0
      · exact ⟨[], parse_related_queries_falsy _ (by simp [truthy, hq])⟩
      · simp [queriesShape, truthy, hq] at hs
    | str s =>
      by_cases he : s.isEmpty
      · exact ⟨[], parse_related_queries_falsy _ (by simp [truthy, he])⟩
      · simp [queriesShape, truthy, he] at hs
        exact ⟨[], by simp [parse_related_queries, truthy, he, pyIn, hs]⟩
    | arr xs =>
      by_cases he : xs.isEmpty
      · exact ⟨[], parse_related_queries_falsy _ (by simp [truthy, he])⟩
      · simp [queriesShape, truthy, he] at hs
        have hany : (xs.any fun e =>
            match e with
            | Json.str s => decide (s = "related_queries")
            | _ => false) = false := by
          rw [List.any_eq_false]
          exact fun x hx => by simp [hs x hx]
        exact ⟨[], by simp [parse_related_queries, truthy, he, pyIn, hany]⟩
    | obj fs =>
      by_cases he : fs.isEmpty
      · exact ⟨[], parse_related_queries_falsy _ (by simp [truthy, he])⟩
      · have htr : truthy (.obj fs) = true := by simp [truthy, he]
        cases hf : jLookup fs "related_queries" with
        | none => exact ⟨[], by simp [parse_related_queries, htr, pyIn, hf]⟩
        | some v =>
          cases v with
          | obj gs =>
            cases hgt : (jLookup gs "top").getD (.arr []) with
            | arr ts =>
              cases hgr : (jLookup gs "rising").getD (.arr []) with
              | arr rs =>
                simp [queriesShape, truthy, he, hf, hgt, hgr] at hs
                have hall : (ts ++ rs).all isObjJ = true := List.all_eq_true.mpr (fun x hx => by
                  rcases List.mem_append.mp hx with hm | hm
                  · exact hs.1 x hm
                  · exact hs.2 x hm)
                exact ⟨_, parse_related_queries_obj fs gs ts rs hf hgt hgr hall⟩
              | null => simp [queriesShape, truthy, he, hf, hgt, hgr] at hs
              | bool b => simp [queriesShape, truthy, he, hf, hgt, hgr] at hs
              | num q => simp [queriesShape, truthy, he, hf, hgt, hgr] at hs
              | str s => simp [queriesShape, truthy, he, hf, hgt, hgr] at hs
              | obj gs2 => simp [queriesShape, truthy, he, hf, hgt, hgr] at hs
            | null => simp [queriesShape, truthy, he, hf, hgt] at hs
            | bool b => simp [queriesShape, truthy, he, hf, hgt] at hs
            | num q => simp [queriesShape, truthy, he, hf, hgt] at hs
            | str s => simp [queriesShape, truthy, he, hf, hgt] at hs
            | obj gs2 => simp [queriesShape, truthy, he, hf, hgt] at hs
          | null => simp [queriesShape, truthy, he, hf] at hs
          | bool b => simp [queriesShape, truthy, he, hf] at hs
          | num q => simp [queriesShape, truthy, he, hf] at hs
          | str s => simp [queriesShape, truthy, he, hf] at hs
          | arr xs => simp [queriesShape, truthy, he, hf] at hs
  · intro hs
    cases j with
    | null => exact ⟨[], parse_news_results_falsy _ rfl⟩
    | bool b =>
      cases b with
      | false => exact ⟨[], parse_news_results_falsy _ rfl⟩
      | true => simp [newsShape, truthy] at hs
    | num q =>
      by_cases hq : q = 0
      · exact ⟨[], parse_news_results_falsy _ (by simp [truthy, hq])⟩
      · simp [newsShape, truthy, hq] at hs
    | str s =>
      by_cases he : s.isEmpty
      · exact ⟨[], parse_news_results_falsy _ (by simp [truthy, he])⟩
      · simp [newsShape, truthy, he] at hs
    | arr xs =>
      by_cases he : xs.isEmpty
      · exact ⟨[], parse_news_results_falsy _ (by simp [truthy, he])⟩
      · simp [newsShape, truthy, he] at hs
    | obj fs =>
      by_cases he : fs.isEmpty
      · exact ⟨[], parse_news_results_falsy _ (by simp [truthy, he])⟩
      · have htr : truthy (.obj fs) = true := by simp [truthy, he]
        cases hf : jLookup fs "news_results" with
        | none => exact ⟨[], parse_news_results_obj fs [] htr (by rw [hf]; rfl) rfl⟩
        | some v =>
          cases v with
          | arr items =>
            simp [newsShape, truthy, he, hf] at hs
            exact ⟨_, parse_news_results_obj fs items htr (by rw [hf]; rfl) (List.all_eq_true.mpr hs)⟩
          | null => simp [newsShape, truthy, he, hf] at hs
          | bool b => simp [newsShape, truthy, he, hf] at hs
          | num q => simp [newsShape, truthy, he, hf] at hs
          | str s => simp [newsShape, truthy, he, hf] at hs
          | obj gs2 => simp [newsShape, truthy, he, hf] at hs

/-- Witness for C4 as amended: falsy input at `Json.null`, and a dict
input with all three well-shaped buckets. -/
theorem normalizers_C4_witness :
    (parse_related_topics Json.null = .ok [] ∧ parse_related_queries Json.null = .ok [] ∧
      parse_news_results Json.null = .ok []) ∧
    (∃ l, parse_related_topics (Json.obj
      [("related_topics", Json.obj [("top", Json.arr [Json.obj [("topic",
        Json.obj [("title", Json.str "T")])]])]),
       ("related_queries", Json.obj [("top", Json.arr [Json.obj [("query", Json.str "q")]])]),
       ("news_results", Json.arr [Json.obj [("link", Json.str "u")]])]) = .ok l) ∧
    (∃ l, parse_related_queries (Json.obj
      [("related_topics", Json.obj [("top", Json.arr [Json.obj [("topic",
        Json.obj [("title", Json.str "T")])]])]),
       ("related_queries", Json.obj [("top", Json.arr [Json.obj [("query", Json.str "q")]])]),
       ("news_results", Json.arr [Json.obj [("link", Json.str "u")]])]) = .ok l) ∧
    (∃ l, parse_news_results (Json.obj
      [("related_topics", Json.obj [("top", Json.arr [Json.obj [("topic",
        Json.obj [("title", Json.str "T")])]])]),
       ("related_queries", Json.obj [("top", Json.arr [Json.obj [("query", Json.str "q")]])]),
       ("news_results", Json.arr [Json.obj [("link", Json.str "u")]])]) = .ok l) :=
  ⟨(normalizers_C4_amended Json.null).1 rfl,
   (normalizers_C4_amended _).2.1 rfl,
   (normalizers_C4_amended _).2.2.1 rfl,
   (normalizers_C4_amended _).2.2.2 rfl⟩

/-- Counterexample to claim C5: a record coming from the "rising"
bucket does NOT carry rising = true in the output.  The active
`parse_related_queries` only preserves an existing "rising" field
(`item.get("rising", False)`); the bucket-based tagging existed only in
the commented-out older version. -/
theorem queries_merge_C5_cex :
    parse_related_queries (Json.obj [("related_queries",
        Json.obj [("rising", Json.arr [Json.obj [("query", Json.str "barefoot shoes")]])])]) =
      .ok [Json.obj [("query", Json.str "barefoot shoes"), ("rising", Json.bool false)]] := rfl

/-- Claim C5 as amended: the queries normalizer returns the "top"
bucket records followed by the "rising" bucket records in order, keeps
only records that have a "query" member, and each output record's
rising flag equals the record's own "rising" field (defaulting to
false) — records from the rising bucket are not tagged rising = true
by virtue of their bucket. -/
theorem queries_merge_C5_amended (ts rs : List Json) (h : (ts ++ rs).all isObjJ = true) :
    parse_related_queries (Json.obj [("related_queries",
        Json.obj [("top", Json.arr ts), ("rising", Json.arr rs)])]) =
      .ok ((ts ++ rs).filterMap querySpec) :=
  parse_related_queries_obj _ _ ts rs rfl rfl rfl h

/-- Witness for C5 as amended: one top record, one rising record with
its own rising flag, one rising record without a query member. -/
theorem queries_merge_C5_witness :
    parse_related_queries (Json.obj [("related_queries",
        Json.obj [("top", Json.arr [Json.obj [("query", Json.str "a")]]),
                  ("rising", Json.arr [Json.obj [("query", Json.str "b"),
                    ("rising", Json.bool true)], Json.obj [("value", Json.num 1)]])])]) =
      .ok [Json.obj [("query", Json.str "a"), ("rising", Json.bool false)],
           Json.obj [("query", Json.str "b"), ("rising", Json.bool true)]] :=
  queries_merge_C5_amended [Json.obj [("query", Json.str "a")]]
    [Json.obj [("query", Json.str "b"), ("rising", Json.bool true)],
     Json.obj [("value", Json.num 1)]] rfl

/-- Claim C7: the topics normalizer uses the "top" bucket, falling back
to "rising" exactly when "top" is falsy (empty or absent) — that is
what `bucketOf` computes; it accepts nested and flat record shapes with
"Unknown"/"Topic" fillers (the content of `topicSpec`); and the
spec scenario nested input normalizes to the flattened Bluetooth
record.  The last two conjuncts exercise the fillers: a nested record
with an empty topic dict gets title "Unknown" and type "Topic", and a
flat record (reached via the rising fallback) gets the "Topic" type
filler. -/
theorem topics_normalizer_C7 (fs gs : List (String × Json)) (items : List Json)
    (hf : jLookup fs "related_topics" = some (.obj gs))
    (hb : bucketOf gs = .arr items)
    (h : items.all topicRecGood = true) :
    parse_related_topics (.obj fs) = .ok (items.filterMap topicSpec) ∧
    parse_related_topics (Json.obj [("related_topics", Json.obj [("top",
        Json.arr [Json.obj [("topic", Json.obj [("title", Json.str "Bluetooth"),
          ("type", Json.str "Topic")]), ("value", Json.num 10)]])])]) =
      .ok [Json.obj [("title", Json.str "Bluetooth"), ("type", Json.str "Topic"),
        ("value", Json.num 10)]] ∧
    parse_related_topics (Json.obj [("related_topics", Json.obj [("top",
        Json.arr [Json.obj [("topic", Json.obj []), ("value", Json.num 3)]])])]) =
      .ok [Json.obj [("title", Json.str "Unknown"), ("type", Json.str "Topic"),
        ("value", Json.num 3)]] ∧
    parse_related_topics (Json.obj [("related_topics", Json.obj [("rising",
        Json.arr [Json.obj [("title", Json.str "Flat")]])])]) =
      .ok [Json.obj [("title", Json.str "Flat"), ("type", Json.str "Topic"),
        ("value", Json.str "")]] :=
  ⟨parse_related_topics_obj fs gs items hf hb h, rfl, rfl, rfl⟩

/-- Witness for C7 at the spec scenario input. -/
theorem topics_normalizer_C7_witness :
    parse_related_topics (Json.obj [("related_topics", Json.obj [("top",
        Json.arr [Json.obj [("topic", Json.obj [("title", Json.str "Bluetooth"),
          ("type", Json.str "Topic")]), ("value", Json.num 10)]])])]) =
      .ok [Json.obj [("title", Json.str "Bluetooth"), ("type", Json.str "Topic"),
        ("value", Json.num 10)]] :=
  (topics_normalizer_C7 [("related_topics", Json.obj [("top",
      Json.arr [Json.obj [("topic", Json.obj [("title", Json.str "Bluetooth"),
        ("type", Json.str "Topic")]), ("value", Json.num 10)]])])]
    [("top", Json.arr [Json.obj [("topic", Json.obj [("title", Json.str "Bluetooth"),
        ("type", Json.str "Topic")]), ("value", Json.num 10)]])]
    [Json.obj [("topic", Json.obj [("title", Json.str "Bluetooth"),
        ("type", Json.str "Topic")]), ("value", Json.num 10)]]
    rfl rfl rfl).1

theorem iotValues_good (vs : List Json) (date : Json) (h : vs.all isObjJ = true) :
    iotValues vs date = .ok (vs.map (fun v =>
      (date, match v with
             | .obj gs => (jLookup gs "extracted_value").getD (.num 0)
             | _ => Json.num 0))) := by
  induction vs with
  | nil => rfl
  | cons v rest ih =>
    rw [List.all_cons, Bool.and_eq_true] at h
    obtain ⟨h1, h2⟩ := h
    cases v with
    | obj gs => simp [iotValues, pyGet, ih h2]
    | null => simp [isObjJ] at h1
    | bool b => simp [isObjJ] at h1
    | num q => simp [isObjJ] at h1
    | str s => simp [isObjJ] at h1
    | arr xs => simp [isObjJ] at h1

theorem iotEntries_good (tl : List Json) (h : ∀ e ∈ tl, entryGood e = true) :
    iotEntries tl = .ok ((tl.map iotEntrySpec).flatten) := by
  induction tl with
  | nil => rfl
  | cons e rest ih =>
    have h1 : entryGood e = true := h e (List.mem_cons_self e rest)
    have h2 : ∀ x ∈ rest, entryGood x = true := fun x hx => h x (List.mem_cons_of_mem e hx)
    cases e with
    | obj fs =>
      by_cases hskip : (!truthy ((jLookup fs "date").getD (.str "")) ||
          !truthy ((jLookup fs "values").getD (.arr []))) = true
      · simp only [iotEntries, pyGet]
        rw [if_pos hskip, ih h2]
        simp [iotEntrySpec, hskip]
      · cases hv : jLookup fs "values" with
        | none =>
          exfalso
          apply hskip
          simp [hv, truthy]
        | some v =>
          cases v with
          | arr vs =>
            have hall : vs.all isObjJ = true := by
              have h1x := h1
              simp only [entryGood, hv] at h1x
              exact h1x
            have hd : truthy ((jLookup fs "date").getD (Json.str "")) = true := by
              by_contra hdc
              apply hskip
              simp [Bool.eq_false_iff.mpr hdc]
            have hvv : truthy (Json.arr vs) = true := by
              by_contra hvc
              apply hskip
              simp [hv, Bool.eq_false_iff.mpr hvc]
            simp only [iotEntries, pyGet]
            rw [if_neg hskip]
            simp only [hv, Option.getD_some, pyIter]
            rw [iotValues_good vs _ hall, ih h2]
            simp [iotEntrySpec, hv, hd, hvv]
          | null =>
            exfalso
            apply hskip
            simp [hv, truthy]
          | bool b =>
            exfalso
            apply hskip
            have h1x := h1
            simp only [entryGood, hv] at h1x
            simp at h1x
            simp [hv, h1x]
          | num q =>
            exfalso
            apply hskip
            have h1x := h1
            simp only [entryGood, hv] at h1x
            simp at h1x
            simp [hv, h1x]
          | str s =>
            exfalso
            apply hskip
            have h1x := h1
            simp only [entryGood, hv] at h1x
            simp at h1x
            simp [hv, h1x]
          | obj gs =>
            exfalso
            apply hskip
            have h1x := h1
            simp only [entryGood, hv] at h1x
            simp at h1x
            simp [hv, h1x]
    | null => simp [entryGood] at h1
    | bool b => simp [entryGood] at h1
    | num q => simp [entryGood] at h1
    | str s => simp [entryGood] at h1
    | arr xs => simp [entryGood] at h1

/-- Claim C10: the time-series parser only ever returns a dict that is
empty or has the given keyword as its only key (first conjunct, for
every input on which it returns); and on a response whose timeline
entries are well-shaped, the pairs appear in timeline order, entries
with a falsy date or falsy values member are skipped, and a value
record without "extracted_value" contributes 0 (second conjunct, the
`iotEntrySpec` characterization). -/
theorem iot_parser_C10 (k : String) :
    (∀ j d, parse_interest_over_time j k = .ok d →
      d = [] ∨ ∃ ps, d = [(k, ps)]) ∧
    (∀ tl, (∀ e ∈ tl, entryGood e = true) →
      parse_interest_over_time (iotJson tl) k =
        .ok (if ((tl.map iotEntrySpec).flatten).isEmpty then []
             else [(k, (tl.map iotEntrySpec).flatten)])) := by
  constructor
  · intro j d hd
    unfold parse_interest_over_time at hd
    repeat' split at hd
    all_goals first
      | exact Or.inl (Except.ok.inj hd).symm
      | exact Or.inr ⟨_, (Except.ok.inj hd).symm⟩
      | exact absurd hd (by simp)
  · intro tl h
    simp [parse_interest_over_time, iotJson, truthy, pyIn, jLookup, pyGet, pyIter,
      iotEntries_good tl h]

/-- Witness for C10: the shape property at the trivial input, and the
characterization on a one-entry timeline whose second value record
lacks "extracted_value" and so contributes 0. -/
theorem iot_parser_C10_witness :
    (([] : List (String × List (Json × Json))) = [] ∨
      ∃ ps, ([] : List (String × List (Json × Json))) = [("kw", ps)]) ∧
    parse_interest_over_time (iotJson [Json.obj [("date", Json.str "2024-01-01"),
        ("values", Json.arr [Json.obj [("extracted_value", Json.num 5)], Json.obj []])]]) "kw" =
      .ok [("kw", [(Json.str "2024-01-01", Json.num 5), (Json.str "2024-01-01", Json.num 0)])] := by
  constructor
  · exact (iot_parser_C10 "kw").1 Json.null [] rfl
  · have h := (iot_parser_C10 "kw").2 [Json.obj [("date", Json.str "2024-01-01"),
      ("values", Json.arr [Json.obj [("extracted_value", Json.num 5)], Json.obj []])]]
      (by intro e he; rw [List.mem_singleton] at he; subst he; rfl)
    rw [h]
    rfl

theorem sentiLoop_ok (score : String → ℚ) (replies : List Json)
    (h : replies.all replyTextOk = true) :
    sentiLoop score replies =
      .ok (replies.filterMap (recordSpec score), (keptTexts replies).map score) := by
  induction replies with
  | nil => rfl
  | cons reply rest ih =>
    rw [List.all_cons, Bool.and_eq_true] at h
    obtain ⟨h1, h2⟩ := h
    cases reply with
    | obj fs =>
      cases hl : jLookup fs "text" with
      | none =>
        simp [sentiLoop, pyGet, asPyStr, hl, isBlankStr, recordSpec, keptTexts,
          List.filterMap_cons, ih h2]
      | some t =>
        cases t with
        | str s =>
          by_cases hb : isBlankStr s = true
          · simp [sentiLoop, pyGet, asPyStr, hl, hb, recordSpec, keptTexts,
              List.filterMap_cons, ih h2]
          · simp [sentiLoop, pyGet, asPyStr, hl, hb, recordSpec, keptTexts,
              List.filterMap_cons, ih h2]
        | null => simp [replyTextOk, hl] at h1
        | bool b => simp [replyTextOk, hl] at h1
        | num q => simp [replyTextOk, hl] at h1
        | arr xs => simp [replyTextOk, hl] at h1
        | obj gs => simp [replyTextOk, hl] at h1
    | null => simp [replyTextOk] at h1
    | bool b => simp [replyTextOk] at h1
    | num q => simp [replyTextOk] at h1
    | str s => simp [replyTextOk] at h1
    | arr xs => simp [replyTextOk] at h1

theorem sentiLoop_blank (score : String → ℚ) (replies : List Json)
    (h : replies.all replyBlank = true) :
    sentiLoop score replies = .ok ([], []) := by
  induction replies with
  | nil => rfl
  | cons reply rest ih =>
    rw [List.all_cons, Bool.and_eq_true] at h
    obtain ⟨h1, h2⟩ := h
    cases reply with
    | obj fs =>
      cases hl : jLookup fs "text" with
      | none => simp [sentiLoop, pyGet, asPyStr, hl, isBlankStr, ih h2]
      | some t =>
        cases t with
        | str s =>
          have hb : isBlankStr s = true := by
            have h1x := h1
            simp only [replyBlank, hl, Option.getD_some] at h1x
            exact h1x
          simp [sentiLoop, pyGet, asPyStr, hl, hb, ih h2]
        | null => simp [replyBlank, hl] at h1
        | bool b => simp [replyBlank, hl] at h1
        | num q => simp [replyBlank, hl] at h1
        | arr xs => simp [replyBlank, hl] at h1
        | obj gs => simp [replyBlank, hl] at h1
    | null => simp [replyBlank] at h1
    | bool b => simp [replyBlank] at h1
    | num q => simp [replyBlank] at h1
    | str s => simp [replyBlank] at h1
    | arr xs => simp [replyBlank] at h1

/-- Counterexample to claim C3: at a compound score of exactly 0.05 the
per-reply classification (non-strict `>= 0.05`) says POSITIVE and the
mean equals 0.05, yet the overall label is "Overall Neutral", because
the overall classification uses the strict `> 0.05` — not "those same"
thresholds as the claim states. -/
theorem sentiment_thresholds_C3_cex :
    analyze_replies_sentiment (fun _ => (1 : ℚ) / 20) [Json.obj [("text", Json.str "hi")]] =
      .ok (SentimentSummary.mk
        [Json.obj [("username", Json.null), ("text", Json.str "hi"),
          ("label", Json.str "POSITIVE"), ("score", Json.num (1 / 20)),
          ("polarity", Json.num (1 / 20)), ("permalink", Json.null),
          ("timestamp", Json.null)]]
        (1 / 20) "Overall Neutral" neuRecs) := by with_unfolding_all rfl

/-- Claim C3 as amended: for every batch whose replies are dicts with
string (or absent) text, each scored reply is labelled by the
non-strict thresholds (`sentiLabel`: ≥ 0.05 POSITIVE, ≤ -0.05
NEGATIVE, else NEUTRAL), the cumulative sentiment is the arithmetic
mean of the compound scores of exactly the non-blank-text replies, and
the overall label applies STRICT > 0.05 / < -0.05 thresholds to that
mean (`overallOf`) — at a mean of exactly ±0.05 the overall label is
Neutral even though a single reply at that score is POSITIVE/NEGATIVE. -/
theorem sentiment_thresholds_C3_amended (score : String → ℚ) (replies : List Json)
    (h : replies.all replyTextOk = true) (hk : keptTexts replies ≠ []) :
    analyze_replies_sentiment score replies =
      .ok (SentimentSummary.mk (replies.filterMap (recordSpec score))
        (((keptTexts replies).map score).sum / ((keptTexts replies).length : ℚ))
        (overallOf (((keptTexts replies).map score).sum / ((keptTexts replies).length : ℚ))).1
        (overallOf (((keptTexts replies).map score).sum / ((keptTexts replies).length : ℚ))).2) ∧
    (∀ c : ℚ, (sentiLabel c = "POSITIVE" ↔ c ≥ 1 / 20) ∧
      (sentiLabel c = "NEGATIVE" ↔ c ≤ -(1 / 20))) ∧
    (∀ c : ℚ, ((overallOf c).1 = "Overall Positive" ↔ c > 1 / 20) ∧
      ((overallOf c).1 = "Overall Negative" ↔ c < -(1 / 20))) := by
  refine ⟨?_, ?_, ?_⟩
  · have hne : replies ≠ [] := by
      intro h0
      subst h0
      simp [keptTexts] at hk
    have hv : (keptTexts replies).map score ≠ [] := by
      simpa using hk
    unfold analyze_replies_sentiment
    rw [if_neg (by simpa [List.isEmpty_iff] using hne)]
    simp only [sentiLoop_ok score replies h]
    rw [if_neg (by simpa [List.isEmpty_iff] using hv)]
    simp [List.length_map]
  · intro c
    by_cases h1 : c ≥ 1 / 20
    · have h2 : ¬ c ≤ -(1 / 20) := by
        intro h2
        linarith
      have lab : sentiLabel c = "POSITIVE" := by
        unfold sentiLabel
        rw [if_pos h1]
      exact ⟨iff_of_true lab h1, iff_of_false (by rw [lab]; decide) h2⟩
    · by_cases h2 : c ≤ -(1 / 20)
      · have lab : sentiLabel c = "NEGATIVE" := by
          unfold sentiLabel
          rw [if_neg h1, if_pos h2]
        exact ⟨iff_of_false (by rw [lab]; decide) h1, iff_of_true lab h2⟩
      · have lab : sentiLabel c = "NEUTRAL" := by
          unfold sentiLabel
          rw [if_neg h1, if_neg h2]
        exact ⟨iff_of_false (by rw [lab]; decide) h1, iff_of_false (by rw [lab]; decide) h2⟩
  · intro c
    by_cases h1 : c > 1 / 20
    · have h2 : ¬ c < -(1 / 20) := by
        intro h2
        linarith
      have lab : (overallOf c).1 = "Overall Positive" := by
        unfold overallOf
        rw [if_pos h1]
      exact ⟨iff_of_true lab h1, iff_of_false (by rw [lab]; decide) h2⟩
    · by_cases h2 : c < -(1 / 20)
      · have lab : (overallOf c).1 = "Overall Negative" := by
          unfold overallOf
          rw [if_neg h1, if_pos h2]
        exact ⟨iff_of_false (by rw [lab]; decide) h1, iff_of_true lab h2⟩
      · have lab : (overallOf c).1 = "Overall Neutral" := by
          unfold overallOf
          rw [if_neg h1, if_neg h2]
        exact ⟨iff_of_false (by rw [lab]; decide) h1, iff_of_false (by rw [lab]; decide) h2⟩

/-- Witness for C3 as amended, at the spec scenario of one strongly
positive and one strongly negative text of matched magnitude (plus one
blank-text reply excluded from scoring): the mean is 0 and the overall
label Neutral. -/
theorem sentiment_thresholds_C3_witness :
    analyze_replies_sentiment (fun t => if t = "good" then (1 : ℚ) / 2 else -(1 / 2))
      [Json.obj [("text", Json.str "good")], Json.obj [("text", Json.str "bad")],
       Json.obj [("text", Json.str "  ")]] =
      .ok (SentimentSummary.mk
        [Json.obj [("username", Json.null), ("text", Json.str "good"),
          ("label", Json.str "POSITIVE"), ("score", Json.num (1 / 2)),
          ("polarity", Json.num (1 / 2)), ("permalink", Json.null), ("timestamp", Json.null)],
         Json.obj [("username", Json.null), ("text", Json.str "bad"),
          ("label", Json.str "NEGATIVE"), ("score", Json.num (-(1 / 2))),
          ("polarity", Json.num (-(1 / 2))), ("permalink", Json.null), ("timestamp", Json.null)]]
        0 "Overall Neutral" neuRecs) := by
  have h := (sentiment_thresholds_C3_amended
    (fun t => if t = "good" then (1 : ℚ) / 2 else -(1 / 2))
    [Json.obj [("text", Json.str "good")], Json.obj [("text", Json.str "bad")],
     Json.obj [("text", Json.str "  ")]] (by rfl) (by decide)).1
  rw [h]
  with_unfolding_all rfl

/-- Claim C8: the empty batch and all-blank-text batches yield a
cumulative score of exactly 0, a "no data" overall label ("No Text
Replies" resp. "No Sentiment Data") distinguishable from every real
overall label, and no exception. -/
theorem sentiment_nodata_C8 (score : String → ℚ) (replies : List Json)
    (h : replies.all replyBlank = true) :
    analyze_replies_sentiment score [] =
      .ok (SentimentSummary.mk [] 0 "No Text Replies"
        ["No replies with text found to analyze."]) ∧
    (replies ≠ [] →
      analyze_replies_sentiment score replies =
        .ok (SentimentSummary.mk [] 0 "No Sentiment Data" ["Could not analyze sentiment."])) ∧
    (∀ c : ℚ, "No Text Replies" ≠ (overallOf c).1 ∧ "No Sentiment Data" ≠ (overallOf c).1) := by
  refine ⟨rfl, ?_, ?_⟩
  · intro hne
    unfold analyze_replies_sentiment
    rw [if_neg (by simpa [List.isEmpty_iff] using hne)]
    rw [sentiLoop_blank score replies h]
    rfl
  · intro c
    unfold overallOf
    split_ifs
    · exact ⟨by decide, by decide⟩
    · exact ⟨by decide, by decide⟩
    · exact ⟨by decide, by decide⟩

/-- Witness for C8 at the empty batch and a one-blank-reply batch. -/
theorem sentiment_nodata_C8_witness :
    analyze_replies_sentiment (fun _ => (0 : ℚ)) [] =
      .ok (SentimentSummary.mk [] 0 "No Text Replies"
        ["No replies with text found to analyze."]) ∧
    analyze_replies_sentiment (fun _ => (0 : ℚ)) [Json.obj [("text", Json.str " ")]] =
      .ok (SentimentSummary.mk [] 0 "No Sentiment Data" ["Could not analyze sentiment."]) ∧
    ("No Text Replies" ≠ (overallOf 0).1 ∧ "No Sentiment Data" ≠ (overallOf 0).1) := by
  have h := sentiment_nodata_C8 (fun _ => (0 : ℚ)) [Json.obj [("text", Json.str " ")]] (by rfl)
  exact ⟨h.1, h.2.1 (by simp), h.2.2 0⟩
